import Mathlib

/-!
Shallow embedding of the branded image generation pipeline
(`image_gen_main.py`, class `BrandedImageGenerator`).

Modelling conventions:
* Python strings are Lean `String`s; `', '.join` is `joinComma` below.
* PIL images are modelled by the inductive `Image`, one constructor per
  PIL operation the pipeline performs; only the dimensions and the
  operation history matter to the specification, never pixel contents.
  `Image.copy` is the identity (value semantics).
* Exceptions are `Option`/`Except`: a caught exception source becomes an
  oracle in `Env` (`providerFail` for the try block of
  `generate_image_with_gemini`, `saveFail` for `Image.save` inside
  `generate_variants`, `openImage` for `Image.open`).
* `datetime.now().strftime(...)` / `.isoformat()` are modelled by
  `Env.now : Nat → String`, indexed by an abstract call-site counter;
  each prompt processing call uses two fresh indices.
* `os.path.join(a, b, c)` with relative `b`, `c` and nonempty `a` is
  `a ++ "/" ++ b ++ "/" ++ c`; POSIX `os.path.isabs` checks a leading
  slash (`isAbs`); `os.path.abspath p` is `p` when absolute, else
  `cwd ++ "/" ++ p` (dot-segment normalisation omitted: no path in this
  development contains dot segments).
* The float arithmetic of `apply_branding` (`logo_ratio` and
  `int(logo.height * logo_ratio)`) is idealised as exact rational
  arithmetic followed by truncation, which for naturals is
  `logo.height * logo_width / logo.width` in `Nat` (floor) division.
-/

/-- One entry of `config['image_variants']['sizes']`. -/
structure SizeConfig where
  name : String
  width : Nat
  height : Nat
deriving DecidableEq, Repr

/-- The configuration fields the pipeline methods read from `self`:
`brand_colors`, `style_keywords`, `logo_path`, `output_dir`, and the
`image_variants` section (`sizes`, `format`). -/
structure Config where
  brand_colors : List String
  style_keywords : String
  logo_path : Option String
  output_dir : String
  sizes : List SizeConfig
  format : String
deriving DecidableEq, Repr

/-- Raw JSON configuration as seen by `load_config`: every section is
optional, `none` meaning the key is absent (access raises `KeyError`). -/
structure RawConfig where
  brand_colors : Option (List String)
  style_keywords : Option String
  logo_path : Option String
  output_directory : Option String
  sizes : Option (List SizeConfig)
  format : Option String
deriving DecidableEq, Repr

/-- State established by `load_config` (lines 18-25): the raw document in
`self.config` plus the three fields it extracts eagerly. -/
structure LoadedConfig where
  config : RawConfig
  brand_colors : List String
  output_dir : String
  logo_path : Option String
deriving DecidableEq, Repr

/-- Translation of `load_config` (lines 18-25): it reads
`config['brand']['colors']` and `config['storage']['output_directory']`
(raising `KeyError` when absent) and `config['brand'].get('logo_path')`
(never raising).  It performs no validation whatsoever. -/
def load_config (raw : RawConfig) : Except String LoadedConfig :=
  match raw.brand_colors with
  | none => Except.error "KeyError: brand colors"
  | some colors =>
    match raw.output_directory with
    | none => Except.error "KeyError: storage output_directory"
    | some od =>
      Except.ok { config := raw, brand_colors := colors, output_dir := od,
                  logo_path := raw.logo_path }

/-- PIL images as the pipeline builds them; each constructor records the
dimensions-relevant data of one PIL operation. -/
inductive Image where
  | base (width height : Nat) (color : String)
  | loaded (path : String) (width height : Nat)
  | drawn (src : Image) (op : String)
  | converted (src : Image) (mode : String)
  | resized (src : Image) (width height : Nat)
  | pasted (dst : Image) (overlay : Image) (pos : Int × Int)
deriving DecidableEq, Repr

/-- Pixel width of an image (`img.width` in PIL). -/
def Image.width : Image → Nat
  | .base w _ _ => w
  | .loaded _ w _ => w
  | .drawn s _ => s.width
  | .converted s _ => s.width
  | .resized _ w _ => w
  | .pasted d _ _ => d.width

/-- Pixel height of an image (`img.height` in PIL). -/
def Image.height : Image → Nat
  | .base _ h _ => h
  | .loaded _ _ h => h
  | .drawn s _ => s.height
  | .converted s _ => s.height
  | .resized _ _ h => h
  | .pasted d _ _ => d.height

/-- PIL `img.copy()`: value semantics make it the identity. -/
def Image.copy (img : Image) : Image := img

/-- External effects of one run, abstracted as oracles. -/
structure Env where
  providerFail : String → Bool
  saveFail : String → Bool
  fsExists : String → Bool
  openImage : String → Option Image
  cwd : String
  now : Nat → String

/-- Python `', '.join(l)`. -/
def joinComma : List String → String
  | [] => ""
  | [s] => s
  | s :: rest => s ++ ", " ++ joinComma rest

/-- Translation of `enhance_prompt_with_brand` (lines 41-47). -/
def enhance_prompt_with_brand (cfg : Config) (user_prompt : String) : String :=
  let brand_style := cfg.style_keywords
  let color_desc := "using colors: " ++ joinComma cfg.brand_colors
  user_prompt ++ ", " ++ brand_style ++ ", " ++ color_desc ++
    ", professional marketing image, high quality, detailed"

/-- Translation of `create_base_image` (lines 69-100): a 1024 by 1024
canvas in the first brand color with gradient lines and a text overlay
drawn on it.  Indexing `self.brand_colors[0]` raises `IndexError` when
the color list is empty, modelled as `none` (the caller catches it). -/
def create_base_image (cfg : Config) : Option Image :=
  match cfg.brand_colors with
  | [] => none
  | c :: _ =>
    some (Image.drawn (Image.drawn (Image.base 1024 1024 c) "gradient") "text")

/-- Translation of `generate_image_with_gemini` (lines 49-67): the whole
body runs inside `try`, and any exception (external provider failure,
modelled by `Env.providerFail` on the enhanced prompt, or the
`IndexError` of `create_base_image`) is caught and yields `None`. -/
def generate_image_with_gemini (env : Env) (cfg : Config) (prompt : String) :
    Option Image :=
  let enhanced := enhance_prompt_with_brand cfg prompt
  if env.providerFail enhanced then none
  else create_base_image cfg

/-- POSIX `os.path.isabs`: the path starts with a slash. -/
def isAbs (s : String) : Bool :=
  match s.data with
  | '/' :: _ => true
  | _ => false

/-- POSIX `os.path.abspath` relative to `cwd`, for dot-segment-free
paths: absolute paths are returned unchanged, relative ones are joined
onto `cwd`. -/
def abspath (cwd p : String) : String :=
  if isAbs p then p else cwd ++ "/" ++ p

/-- Translation of `apply_branding` (lines 102-126).  The guard on line
104 tests Python truthiness of `logo_path` (`None` or `""`) and
`os.path.exists`; the `try` block catches a failing `Image.open`
(`openImage = none`), the `ZeroDivisionError` of `logo_ratio` when the
logo width is zero, and the `ValueError` Pillow's `resize` raises on
line 114 when a computed target dimension is zero (Pillow requires
width and height above 0), returning the input image in all these
cases. -/
def apply_branding (env : Env) (cfg : Config) (img : Image) : Image :=
  match cfg.logo_path with
  | none => img
  | some p =>
    if p = "" then img
    else if env.fsExists p = false then img
    else
      match env.openImage p with
      | none => img
      | some logo0 =>
        let logo := Image.converted logo0 "RGBA"
        if logo.width = 0 then img
        else
          let logo_width := img.width / 10
          let logo_height := logo.height * logo_width / logo.width
          if logo_width = 0 ∨ logo_height = 0 then img
          else
            let logoR := Image.resized logo logo_width logo_height
            let pos : Int × Int :=
              ((img.width : Int) - (logo_width : Int) - 20,
               (img.height : Int) - (logo_height : Int) - 20)
            Image.converted
              (Image.pasted (Image.converted (Image.copy img) "RGBA") logoR
                pos)
              "RGB"

/-- Results dictionary built on lines 148-153, one per size variant. -/
structure VariantResult where
  name : String
  size : String
  path : String
  url : String
deriving DecidableEq, Repr

/-- Filename and path of one variant (lines 142-143):
`{prompt_name}_{name}_{timestamp}.{format}` under
`{output_dir}/{name}/`. -/
def variantFilepath (cfg : Config) (pname ts : String) (sc : SizeConfig) :
    String :=
  cfg.output_dir ++ "/" ++ sc.name ++ "/" ++
    (pname ++ "_" ++ sc.name ++ "_" ++ ts ++ "." ++ cfg.format)

/-- The dictionary appended on lines 148-153 for one size variant. -/
def mkVariantResult (env : Env) (cfg : Config) (pname ts : String)
    (sc : SizeConfig) : VariantResult :=
  { name := sc.name,
    size := toString sc.width ++ "x" ++ toString sc.height,
    path := variantFilepath cfg pname ts sc,
    url := "file://" ++ abspath env.cwd (variantFilepath cfg pname ts sc) }

/-- Loop body of `generate_variants` (lines 133-156) over the remaining
size configurations.  `resized_img.save` raising `OSError` is modelled
by `Env.saveFail` on the file path; the exception propagates (there is
no handler anywhere in the file), so the call yields no list at all. -/
def generate_variants_go (env : Env) (cfg : Config) (pname ts : String) :
    List SizeConfig → Except String (List VariantResult)
  | [] => Except.ok []
  | sc :: rest =>
    let filepath := variantFilepath cfg pname ts sc
    if env.saveFail filepath then Except.error filepath
    else
      match generate_variants_go env cfg pname ts rest with
      | Except.error e => Except.error e
      | Except.ok vs => Except.ok (mkVariantResult env cfg pname ts sc :: vs)

/-- Translation of `generate_variants` (lines 128-157): the timestamp is
captured once, before the loop (line 131), and passed here as `ts`.  The
resize of the base image (line 139) only affects the saved file, never
the returned dictionaries, so it is absorbed into the save effect. -/
def generate_variants (env : Env) (cfg : Config) (base : Image)
    (pname ts : String) : Except String (List VariantResult) :=
  let _ := base
  generate_variants_go env cfg pname ts cfg.sizes

/-- Effective prompt name of `process_prompt` (lines 161-162): a falsy
`prompt_name` (`None` or the empty string) is replaced by the prompt
text with spaces turned into underscores, truncated to 30 characters. -/
def effName (prompt : String) (prompt_name : Option String) : String :=
  match prompt_name with
  | none => (prompt.replace " " "_").take 30
  | some s => if s = "" then (prompt.replace " " "_").take 30 else s

/-- Result dictionary of one successfully processed prompt
(lines 180-184). -/
structure GenResult where
  prompt : String
  timestamp : String
  variants : List VariantResult
deriving DecidableEq, Repr

/-- Translation of `process_prompt` (lines 159-186).  `clk` is the
call-site counter for `Env.now`: index `clk` is the strftime timestamp
of line 131 and `clk + 1` the isoformat timestamp of line 182.  A `None`
base image returns `None` (lines 170-172); an uncaught save exception
inside `generate_variants` propagates as `Except.error`. -/
def process_prompt (env : Env) (cfg : Config) (clk : Nat) (prompt : String)
    (prompt_name : Option String) : Except String (Option GenResult) :=
  let pname := effName prompt prompt_name
  match generate_image_with_gemini env cfg prompt with
  | none => Except.ok none
  | some base =>
    let branded := apply_branding env cfg base
    match generate_variants env cfg branded pname (env.now clk) with
    | Except.error e => Except.error e
    | Except.ok vs =>
      Except.ok (some { prompt := prompt, timestamp := env.now (clk + 1),
                        variants := vs })

/-- One entry of the `prompts` argument of `batch_process`: a bare
string, or a dictionary with a prompt and an optional name key. -/
inductive PromptData where
  | str (s : String)
  | dict (prompt : String) (name : Option String)
deriving DecidableEq, Repr

/-- Prompt text of a batch entry (lines 194 and 197). -/
def PromptData.prompt : PromptData → String
  | .str s => s
  | .dict p _ => p

/-- Name computed for the `i`-th (1-based) batch entry (lines 193-198):
`prompt_data.get('name', f"prompt_{i}")` for a dictionary, `"prompt_{i}"`
for a bare string. -/
def resolveName (i : Nat) : PromptData → String
  | .str _ => "prompt_" ++ toString i
  | .dict _ name =>
    match name with
    | some n => n
    | none => "prompt_" ++ toString i

/-- Loop of `batch_process` (lines 192-202) from 1-based index `i`:
process each prompt in order, append non-`None` results, and let any
uncaught exception abort the whole loop. -/
def batch_go (env : Env) (cfg : Config) : Nat → List PromptData →
    Except String (List GenResult)
  | _, [] => Except.ok []
  | i, pd :: rest =>
    match process_prompt env cfg (2 * i) pd.prompt (some (resolveName i pd)) with
    | Except.error e => Except.error e
    | Except.ok none => batch_go env cfg (i + 1) rest
    | Except.ok (some r) =>
      match batch_go env cfg (i + 1) rest with
      | Except.error e => Except.error e
      | Except.ok rs => Except.ok (r :: rs)

/-- Translation of `batch_process` (lines 188-204): `enumerate(prompts, 1)`
starts the index at 1. -/
def batch_process (env : Env) (cfg : Config) (prompts : List PromptData) :
    Except String (List GenResult) :=
  batch_go env cfg 1 prompts

/-! Spec-side reference definitions, written from the specification's
words and compared with the code-side definitions above. -/

/-- Spec-side Variant Exporter: "for each VariantSpec, in the
configuration's declared order, emit a VariantResult" - one result per
configured size, no failure. -/
def exportVariantsSpec (env : Env) (cfg : Config) (pname ts : String) :
    List VariantResult :=
  cfg.sizes.map (mkVariantResult env cfg pname ts)

/-- Spec-side batch loop: "iterate the input sequence in order, collect
every result of a prompt whose base-image provision succeeded, in input
order", building each kept result the way the spec describes one
prompt-processing call (shared timestamp, exported variants). -/
def batchSpecGo (env : Env) (cfg : Config) : Nat → List PromptData →
    List GenResult
  | _, [] => []
  | i, pd :: rest =>
    match generate_image_with_gemini env cfg pd.prompt with
    | none => batchSpecGo env cfg (i + 1) rest
    | some _ =>
      { prompt := pd.prompt, timestamp := env.now (2 * i + 1),
        variants := exportVariantsSpec env cfg
          (effName pd.prompt (some (resolveName i pd))) (env.now (2 * i)) } ::
        batchSpecGo env cfg (i + 1) rest

/-- Spec-side `batchProcess`: the successful prompts' results in input
order. -/
def batchSpec (env : Env) (cfg : Config) (prompts : List PromptData) :
    List GenResult :=
  batchSpecGo env cfg 1 prompts

/-! Concrete fixtures used by witnesses and counterexamples. -/

/-- Configuration of the worked spec scenario: the repository's default
brand colors, style keywords "modern, clean", one 400 by 400 "thumb"
variant, the default relative output directory, no logo. -/
def cfg1 : Config :=
  { brand_colors := ["#0066CC", "#00A3E0", "#FFFFFF"],
    style_keywords := "modern, clean",
    logo_path := none,
    output_dir := "generated_images",
    sizes := [{ name := "thumb", width := 400, height := 400 }],
    format := "jpg" }

/-- The enhanced prompt of the batch entry "Beach party" under `cfg1`;
`env1.providerFail` fails exactly this prompt. -/
def beachEnhanced : String :=
  "Beach party, modern, clean, using colors: #0066CC, #00A3E0, #FFFFFF, professional marketing image, high quality, detailed"

/-- Environment for the three-prompt scenario: the provider fails on the
enhanced "Beach party" prompt only, saving never fails, no logo file
exists, the working directory is `/work`, and the `k`-th timestamp call
returns `T{k}`. -/
def env1 : Env :=
  { providerFail := fun s => s = beachEnhanced,
    saveFail := fun _ => false,
    fsExists := fun _ => false,
    openImage := fun _ => none,
    cwd := "/work",
    now := fun k => "T" ++ toString k }

/-- Three-prompt batch whose second prompt's provision fails under
`env1`. -/
def prompts1 : List PromptData :=
  [PromptData.str "Summer sale", PromptData.str "Beach party",
   PromptData.str "Winter deal"]

/-- A base image as `create_base_image` builds one under `cfg1`. -/
def imgBase : Image :=
  Image.drawn (Image.drawn (Image.base 1024 1024 "#0066CC") "gradient") "text"

/-- Environment in which saving the first prompt's only variant fails
(everything else as in `env1`, provider always succeeds). -/
def env2 : Env :=
  { providerFail := fun _ => false,
    saveFail := fun s => s = "generated_images/thumb/prompt_1_thumb_T2.jpg",
    fsExists := fun _ => false,
    openImage := fun _ => none,
    cwd := "/work",
    now := fun k => "T" ++ toString k }

/-- Environment in which saving the second prompt's only variant fails
(everything else as in `env1`, provider always succeeds). -/
def env3 : Env :=
  { providerFail := fun _ => false,
    saveFail := fun s => s = "generated_images/thumb/prompt_2_thumb_T4.jpg",
    fsExists := fun _ => false,
    openImage := fun _ => none,
    cwd := "/work",
    now := fun k => "T" ++ toString k }

/-- A three-prompt batch of bare strings. -/
def promptsABC : List PromptData :=
  [PromptData.str "Ad one", PromptData.str "Ad two", PromptData.str "Ad three"]

/-- Raw configuration with zero brand colors and two size variants that
share the name `a`: the fields `load_config` reads are all present. -/
def rawBad : RawConfig :=
  { brand_colors := some [],
    style_keywords := some "modern, clean",
    logo_path := none,
    output_directory := some "generated_images",
    sizes := some [{ name := "a", width := 100, height := 100 },
                   { name := "a", width := 200, height := 200 }],
    format := some "jpg" }

/-- Pipeline configuration with an empty brand color list. -/
def cfgZero : Config := { cfg1 with brand_colors := [] }

/-- Environment with a readable 3 by 2 logo at `assets/logo.png`. -/
def envLogo : Env :=
  { providerFail := fun _ => false,
    saveFail := fun _ => false,
    fsExists := fun s => s = "assets/logo.png",
    openImage := fun s =>
      if s = "assets/logo.png" then
        some (Image.loaded "assets/logo.png" 3 2)
      else none,
    cwd := "/work",
    now := fun k => "T" ++ toString k }

/-- Configuration `cfg1` with the logo path set. -/
def cfgLogo : Config := { cfg1 with logo_path := some "assets/logo.png" }

/-- Environment with a readable 7 by 5 logo at `assets/logo.png`: on a
1024-wide base, both scaled dimensions are positive, 10 percent of the
base width is not an integer, and the proportional height truncates. -/
def envLogo7 : Env :=
  { providerFail := fun _ => false,
    saveFail := fun _ => false,
    fsExists := fun s => s = "assets/logo.png",
    openImage := fun s =>
      if s = "assets/logo.png" then
        some (Image.loaded "assets/logo.png" 7 5)
      else none,
    cwd := "/work",
    now := fun k => "T" ++ toString k }

/-- Configuration `cfg1` with an absolute output directory. -/
def cfgAbs : Config := { cfg1 with output_dir := "/srv/out" }

/-- The variant result `generate_variants env1 cfg1 imgBase "p" "ts"`
produces. -/
def vRel : VariantResult :=
  { name := "thumb", size := "400x400",
    path := "generated_images/thumb/p_thumb_ts.jpg",
    url := "file:///work/generated_images/thumb/p_thumb_ts.jpg" }

/-- The variant result `generate_variants env1 cfgAbs imgBase "p" "ts"`
produces. -/
def vAbs : VariantResult :=
  { name := "thumb", size := "400x400",
    path := "/srv/out/thumb/p_thumb_ts.jpg",
    url := "file:///srv/out/thumb/p_thumb_ts.jpg" }

/-- The variant result `generate_variants env2 cfg1 imgBase "q" "zz"`
produces. -/
def vQz : VariantResult :=
  { name := "thumb", size := "400x400",
    path := "generated_images/thumb/q_thumb_zz.jpg",
    url := "file:///work/generated_images/thumb/q_thumb_zz.jpg" }

/-- The variant result of the scenario batch's first prompt. -/
def v1 : VariantResult :=
  { name := "thumb", size := "400x400",
    path := "generated_images/thumb/prompt_1_thumb_T2.jpg",
    url := "file:///work/generated_images/thumb/prompt_1_thumb_T2.jpg" }

/-- The variant result of the scenario batch's third prompt. -/
def v3 : VariantResult :=
  { name := "thumb", size := "400x400",
    path := "generated_images/thumb/prompt_3_thumb_T6.jpg",
    url := "file:///work/generated_images/thumb/prompt_3_thumb_T6.jpg" }

/-- First result of the three-prompt scenario batch. -/
def R1 : GenResult :=
  { prompt := "Summer sale", timestamp := "T3", variants := [v1] }

/-- Third (second returned) result of the three-prompt scenario batch. -/
def R3 : GenResult :=
  { prompt := "Winter deal", timestamp := "T7", variants := [v3] }

deriving instance DecidableEq for Except

/-! Helper lemmas (shared across claims). -/

/-- Membership in a comma-joined list gives a substring decomposition. -/
theorem joinComma_decomp {c : String} :
    ∀ {l : List String}, c ∈ l →
      ∃ pre post, joinComma l = pre ++ c ++ post := by
  intro l
  induction l with
  | nil => intro h; cases h
  | cons s rest ih =>
    intro h
    cases rest with
    | nil =>
      have hc : c = s := by
        cases h with
        | head => rfl
        | tail _ hm => cases hm
      subst hc
      refine ⟨"", "", ?_⟩
      apply String.ext
      simp [joinComma, String.data_append]
    | cons r rs =>
      cases h with
      | head =>
        refine ⟨"", ", " ++ joinComma (r :: rs), ?_⟩
        apply String.ext
        simp [joinComma, String.data_append]
      | tail _ hm =>
        obtain ⟨pre, post, hp⟩ := ih hm
        refine ⟨s ++ ", " ++ pre, post, ?_⟩
        apply String.ext
        simp [joinComma, hp, String.data_append]

/-- A string of the form `prompt_{i}` is never empty. -/
theorem prompt_name_ne_empty (i : Nat) : ("prompt_" ++ toString i) ≠ "" := by
  intro h
  have hd := congrArg String.data h
  rw [String.data_append] at hd
  simp at hd

/-- When no save fails, the export loop returns one result per size, in
order. -/
theorem gv_go_ok_of_nosave (env : Env) (cfg : Config) (pname ts : String)
    (hsave : ∀ p, env.saveFail p = false) :
    ∀ l : List SizeConfig,
      generate_variants_go env cfg pname ts l =
        Except.ok (l.map (mkVariantResult env cfg pname ts)) := by
  intro l
  induction l with
  | nil => rfl
  | cons sc rest ih =>
    simp only [generate_variants_go, hsave, List.map]
    rw [ih]
    simp

/-- Every member of a successful export loop result is the dictionary of
one of the remaining size configurations. -/
theorem gv_go_ok_mem (env : Env) (cfg : Config) (pname ts : String) :
    ∀ (l : List SizeConfig) (vs : List VariantResult),
      generate_variants_go env cfg pname ts l = Except.ok vs →
      ∀ r ∈ vs, ∃ sc, sc ∈ l ∧ r = mkVariantResult env cfg pname ts sc := by
  intro l
  induction l with
  | nil =>
    intro vs h r hr
    simp only [generate_variants_go] at h
    cases h
    cases hr
  | cons sc rest ih =>
    intro vs h r hr
    simp only [generate_variants_go] at h
    by_cases hs : env.saveFail (variantFilepath cfg pname ts sc)
    · rw [if_pos hs] at h; cases h
    · rw [if_neg hs] at h
      cases hgo : generate_variants_go env cfg pname ts rest with
      | error e => rw [hgo] at h; cases h
      | ok vs0 =>
        rw [hgo] at h
        cases h
        cases hr with
        | head => exact ⟨sc, List.mem_cons_self sc rest, rfl⟩
        | tail _ hm =>
          obtain ⟨sc0, hsc0, hr0⟩ := ih vs0 hgo r hm
          exact ⟨sc0, List.mem_cons_of_mem sc hsc0, hr0⟩

/-- A successful export loop result is complete: one entry per remaining
size configuration. -/
theorem gv_go_ok_length (env : Env) (cfg : Config) (pname ts : String) :
    ∀ (l : List SizeConfig) (vs : List VariantResult),
      generate_variants_go env cfg pname ts l = Except.ok vs →
      vs.length = l.length := by
  intro l
  induction l with
  | nil =>
    intro vs h
    simp only [generate_variants_go] at h
    cases h
    rfl
  | cons sc rest ih =>
    intro vs h
    simp only [generate_variants_go] at h
    by_cases hs : env.saveFail (variantFilepath cfg pname ts sc)
    · rw [if_pos hs] at h; cases h
    · rw [if_neg hs] at h
      cases hgo : generate_variants_go env cfg pname ts rest with
      | error e => rw [hgo] at h; cases h
      | ok vs0 =>
        rw [hgo] at h
        cases h
        simp [ih vs0 hgo]

/-- When no save fails, the code-side batch loop equals the spec-side
collection of provider successes. -/
theorem batch_go_of_nosave (env : Env) (cfg : Config)
    (hsave : ∀ p, env.saveFail p = false) :
    ∀ (prompts : List PromptData) (i : Nat),
      batch_go env cfg i prompts =
        Except.ok (batchSpecGo env cfg i prompts) := by
  intro prompts
  induction prompts with
  | nil => intro i; rfl
  | cons pd rest ih =>
    intro i
    simp only [batch_go, batchSpecGo, process_prompt]
    cases hgen : generate_image_with_gemini env cfg pd.prompt with
    | none => exact ih (i + 1)
    | some base =>
      simp only [generate_variants,
        gv_go_ok_of_nosave env cfg _ _ hsave cfg.sizes, ih (i + 1)]
      rfl

/-! Claim theorems. -/

/-- C1: for every configuration and prompt, `enhance_prompt_with_brand`
returns exactly the concatenation of the user prompt, the style
keywords, `using colors: ` with the comma-joined colors, and the fixed
qualifiers; the original prompt is a prefix of the output, every brand
color occurs verbatim, and on the worked scenario (colors `#0066CC`,
`#00A3E0`, `#FFFFFF`, style `modern, clean`, prompt `Summer sale`) the
documented string is returned. -/
theorem C1_enhance_concat (cfg : Config) (prompt : String) (c : String)
    (hc : c ∈ cfg.brand_colors) :
    enhance_prompt_with_brand cfg prompt =
      prompt ++ ", " ++ cfg.style_keywords ++ ", " ++
        ("using colors: " ++ joinComma cfg.brand_colors) ++
        ", professional marketing image, high quality, detailed"
    ∧ (∃ rest, enhance_prompt_with_brand cfg prompt = prompt ++ rest)
    ∧ (∃ l r, enhance_prompt_with_brand cfg prompt = l ++ c ++ r)
    ∧ enhance_prompt_with_brand cfg1 "Summer sale" =
        "Summer sale, modern, clean, using colors: #0066CC, #00A3E0, #FFFFFF, professional marketing image, high quality, detailed" := by
  refine ⟨rfl, ?_, ?_, by decide⟩
  · refine ⟨", " ++ cfg.style_keywords ++ ", " ++
      ("using colors: " ++ joinComma cfg.brand_colors) ++
      ", professional marketing image, high quality, detailed", ?_⟩
    apply String.ext
    simp [enhance_prompt_with_brand, String.data_append, List.append_assoc]
  · obtain ⟨pre, post, hp⟩ := joinComma_decomp hc
    refine ⟨prompt ++ ", " ++ cfg.style_keywords ++ ", " ++
      "using colors: " ++ pre,
      post ++ ", professional marketing image, high quality, detailed", ?_⟩
    apply String.ext
    simp [enhance_prompt_with_brand, hp, String.data_append,
      List.append_assoc]

/-- Witness for C1 at the worked scenario, with color `#00A3E0`. -/
theorem C1_enhance_concat_witness :
    enhance_prompt_with_brand cfg1 "Summer sale" =
      "Summer sale" ++ ", " ++ cfg1.style_keywords ++ ", " ++
        ("using colors: " ++ joinComma cfg1.brand_colors) ++
        ", professional marketing image, high quality, detailed"
    ∧ (∃ rest, enhance_prompt_with_brand cfg1 "Summer sale" =
        "Summer sale" ++ rest)
    ∧ (∃ l r, enhance_prompt_with_brand cfg1 "Summer sale" =
        l ++ "#00A3E0" ++ r)
    ∧ enhance_prompt_with_brand cfg1 "Summer sale" =
        "Summer sale, modern, clean, using colors: #0066CC, #00A3E0, #FFFFFF, professional marketing image, high quality, detailed" :=
  C1_enhance_concat cfg1 "Summer sale" "#00A3E0" (by decide)

/-- C5: if the logo path is unset, empty, nonexistent on disk, or not a
readable image, `apply_branding` returns exactly its input image. -/
theorem C5_apply_branding_noop (env : Env) (cfg : Config) (img : Image)
    (h : cfg.logo_path = none ∨
      ∃ p, cfg.logo_path = some p ∧
        (p = "" ∨ env.fsExists p = false ∨ env.openImage p = none)) :
    apply_branding env cfg img = img := by
  rcases h with h | ⟨p, hp, hcase⟩
  · simp [apply_branding, h]
  · rcases hcase with he | hf | ho
    · simp [apply_branding, hp, he]
    · simp [apply_branding, hp, hf]
    · simp [apply_branding, hp, ho]

/-- Witness for C5: no logo path configured in `cfg1`. -/
theorem C5_apply_branding_noop_witness :
    apply_branding env1 cfg1 imgBase = imgBase :=
  C5_apply_branding_noop env1 cfg1 imgBase (Or.inl rfl)

/-- C7: the image returned by `apply_branding` always has exactly the
width and height of the input image, in particular for every valid
logo. -/
theorem C7_apply_branding_dims (env : Env) (cfg : Config) (img : Image) :
    (apply_branding env cfg img).width = img.width ∧
    (apply_branding env cfg img).height = img.height := by
  constructor <;>
  · unfold apply_branding
    repeat' split
    all_goals try rfl
    all_goals try dsimp only
    all_goals repeat' split
    all_goals rfl

/-- C10: the `i`-th batch entry that is a bare string or a dictionary
without a name key gets the name `prompt_{i}`; `process_prompt` keeps
that name as-is (it is nonempty, so the fallback never fires), while the
prompt-text-derived name is used only when the name argument is
omitted. -/
theorem C10_batch_names (i : Nat) (pd : PromptData) (p q : String)
    (h : pd = PromptData.str p ∨ pd = PromptData.dict p none) :
    resolveName i pd = "prompt_" ++ toString i
    ∧ effName p (some (resolveName i pd)) = "prompt_" ++ toString i
    ∧ effName q none = (q.replace " " "_").take 30 := by
  have hres : resolveName i pd = "prompt_" ++ toString i := by
    rcases h with h | h <;> subst h <;> rfl
  refine ⟨hres, ?_, rfl⟩
  rw [hres]
  simp only [effName]
  rw [if_neg (prompt_name_ne_empty i)]

/-- Witness for C10 with the second batch entry a bare string. -/
theorem C10_batch_names_witness :
    resolveName 2 (PromptData.str "Summer sale") = "prompt_" ++ toString 2
    ∧ effName "Summer sale"
        (some (resolveName 2 (PromptData.str "Summer sale"))) =
        "prompt_" ++ toString 2
    ∧ effName "x y" none = (String.replace "x y" " " "_").take 30 :=
  C10_batch_names 2 (PromptData.str "Summer sale") "Summer sale" "x y"
    (Or.inl rfl)

/-- A string starting with a slash chunk is absolute. -/
theorem isAbs_slash_append (q : String) : isAbs ("/" ++ q) = true := by
  unfold isAbs
  rw [String.data_append]
  rfl

/-- C2: when no filesystem write fails, `batch_process` returns `ok` of
exactly the spec-side collection `batchSpec`: the results of the prompts
whose base-image provision succeeded, in input order; and in the worked
three-prompt scenario whose second prompt's provision fails,
`batch_process` returns exactly the two results of the successes,
preserving their relative order. -/
theorem C2_batch_order (env : Env) (cfg : Config) (prompts : List PromptData)
    (hsave : ∀ p, env.saveFail p = false) :
    batch_process env cfg prompts = Except.ok (batchSpec env cfg prompts)
    ∧ batch_process env1 cfg1 prompts1 = Except.ok [R1, R3] := by
  exact ⟨batch_go_of_nosave env cfg hsave prompts 1, by decide⟩

/-- Witness for C2 at the three-prompt scenario environment. -/
theorem C2_batch_order_witness :
    batch_process env1 cfg1 prompts1 = Except.ok (batchSpec env1 cfg1 prompts1)
    ∧ batch_process env1 cfg1 prompts1 = Except.ok [R1, R3] :=
  C2_batch_order env1 cfg1 prompts1 (fun _ => rfl)

/-- C3 counterexample: in a three-prompt batch whose second prompt's
only variant fails to save, `batch_process` raises (returns the error of
that write) instead of continuing with the third prompt: the batch
yields no result list at all. -/
theorem C3_counterexample :
    batch_process env3 cfg1 promptsABC =
      Except.error "generated_images/thumb/prompt_2_thumb_T4.jpg"
    ∧ (batch_process env3 cfg1 promptsABC).toOption = none := by
  exact ⟨by decide, by decide⟩

/-- C3 amended: a filesystem failure while writing a variant is fatal to
that prompt's export call, so no partial variant set is ever returned (a
successful export has one entry per configured size), and the exception
propagates uncaught out of `batch_process`, aborting the remaining
prompts of the batch instead of continuing. -/
theorem C3_amended_abort (env : Env) (cfg : Config) (base : Image)
    (pname ts : String) (vs : List VariantResult)
    (h : generate_variants env cfg base pname ts = Except.ok vs)
    (pd : PromptData) (rest : List PromptData) (e : String)
    (hp : process_prompt env cfg 2 pd.prompt (some (resolveName 1 pd)) =
      Except.error e) :
    vs.length = cfg.sizes.length
    ∧ batch_process env cfg (pd :: rest) = Except.error e := by
  constructor
  · exact gv_go_ok_length env cfg pname ts cfg.sizes vs h
  · have h21 : (2 : Nat) * 1 = 2 := rfl
    simp only [batch_process, batch_go, h21, hp]

/-- Witness for C3 amended: saving the first prompt's variant fails. -/
theorem C3_amended_abort_witness :
    [vQz].length = cfg1.sizes.length
    ∧ batch_process env2 cfg1
        (PromptData.str "Ad one" :: [PromptData.str "Ad two"]) =
        Except.error "generated_images/thumb/prompt_1_thumb_T2.jpg" :=
  C3_amended_abort env2 cfg1 imgBase "q" "zz" [vQz] (by decide)
    (PromptData.str "Ad one") [PromptData.str "Ad two"]
    "generated_images/thumb/prompt_1_thumb_T2.jpg" (by decide)

/-- C4 counterexample: a configuration with zero brand colors and two
size variants sharing one name loads successfully - `load_config` raises
nothing at load time. -/
theorem C4_counterexample :
    load_config rawBad = Except.ok
      { config := rawBad, brand_colors := [],
        output_dir := "generated_images", logo_path := none }
    ∧ rawBad.brand_colors = some []
    ∧ rawBad.sizes = some [{ name := "a", width := 100, height := 100 },
                           { name := "a", width := 200, height := 200 }]
    ∧ ({ name := "a", width := 100, height := 100 } : SizeConfig).name =
        ({ name := "a", width := 200, height := 200 } : SizeConfig).name := by
  exact ⟨by decide, by decide, by decide, by decide⟩

/-- C4 amended: `load_config` validates nothing: any raw configuration
in which `brand.colors` and `storage.output_directory` are present loads
successfully, regardless of zero colors or duplicate variant names.  A
zero-color configuration only fails later, when `create_base_image`
indexes the first color (and that exception is caught per prompt). -/
theorem C4_amended_no_validation (raw : RawConfig) (colors : List String)
    (od : String) (hc : raw.brand_colors = some colors)
    (ho : raw.output_directory = some od) (cfg : Config)
    (hz : cfg.brand_colors = []) :
    load_config raw = Except.ok
      { config := raw, brand_colors := colors, output_dir := od,
        logo_path := raw.logo_path }
    ∧ create_base_image cfg = none := by
  constructor
  · simp [load_config, hc, ho]
  · simp [create_base_image, hz]

/-- Witness for C4 amended at the invalid-by-the-spec configuration. -/
theorem C4_amended_no_validation_witness :
    load_config rawBad = Except.ok
      { config := rawBad, brand_colors := [],
        output_dir := "generated_images", logo_path := rawBad.logo_path }
    ∧ create_base_image cfgZero = none :=
  C4_amended_no_validation rawBad [] "generated_images" rfl rfl cfgZero rfl

/-- C6 counterexample: on a 1024-pixel-wide base image with a 7 by 5
logo, `apply_branding` composites the logo at width 102 (integer
division of 1024 by 10), although 102 is not exactly 10 percent of 1024,
and at height 72 (truncation of the proportional height 510/7), although
the nearest integer to 510/7 is 73. -/
theorem C6_counterexample :
    apply_branding envLogo7 cfgLogo imgBase =
      Image.converted (Image.pasted (Image.converted imgBase "RGBA")
        (Image.resized
          (Image.converted (Image.loaded "assets/logo.png" 7 5) "RGBA")
          102 72)
        (902, 932)) "RGB"
    ∧ (102 : Nat) * 10 ≠ imgBase.width
    ∧ (72 : Int) ≠ round ((5 * 102 : ℚ) / 7) := by
  refine ⟨by decide, by decide, ?_⟩
  rw [round_eq]
  norm_num

/-- C6 amended: for a configured, existing, readable logo of nonzero
width whose computed target dimensions `baseWidth / 10` and
`logoHeight * (baseWidth / 10) / logoWidth` are both positive,
`apply_branding` scales the logo to exactly those dimensions - integer
floor division, not exactly 10 percent, and proportional height
truncated toward zero, not rounded to nearest - and pastes it 20 pixels
in from the bottom right corner.  (When a computed dimension is zero,
the resize raises and the input is returned unbranded.) -/
theorem C6_amended_scaling (env : Env) (cfg : Config) (img : Image)
    (p : String) (logo0 : Image) (hp : cfg.logo_path = some p)
    (hne : p ≠ "") (hex : env.fsExists p = true)
    (hopen : env.openImage p = some logo0)
    (hw : (Image.converted logo0 "RGBA").width ≠ 0)
    (h10 : img.width / 10 ≠ 0)
    (hh : (Image.converted logo0 "RGBA").height * (img.width / 10) /
      (Image.converted logo0 "RGBA").width ≠ 0) :
    apply_branding env cfg img =
      Image.converted (Image.pasted (Image.converted img "RGBA")
        (Image.resized (Image.converted logo0 "RGBA") (img.width / 10)
          ((Image.converted logo0 "RGBA").height * (img.width / 10) /
            (Image.converted logo0 "RGBA").width))
        ((img.width : Int) - ((img.width / 10 : Nat) : Int) - 20,
         (img.height : Int) -
           (((Image.converted logo0 "RGBA").height * (img.width / 10) /
             (Image.converted logo0 "RGBA").width : Nat) : Int) - 20)) "RGB" := by
  simp only [apply_branding, hp]
  rw [if_neg hne, if_neg (by simp [hex])]
  simp only [hopen]
  try dsimp only
  rw [if_neg hw, if_neg (not_or.mpr ⟨h10, hh⟩)]
  rfl

/-- Witness for C6 amended: 1024-pixel base, 3 by 2 logo, scaled to 102
by 68. -/
theorem C6_amended_scaling_witness :
    apply_branding envLogo cfgLogo imgBase =
      Image.converted (Image.pasted (Image.converted imgBase "RGBA")
        (Image.resized
          (Image.converted (Image.loaded "assets/logo.png" 3 2) "RGBA") 102 68)
        (902, 936)) "RGB" :=
  C6_amended_scaling envLogo cfgLogo imgBase "assets/logo.png"
    (Image.loaded "assets/logo.png" 3 2) rfl (by decide) (by decide)
    (by decide) (by decide) (by decide) (by decide)

/-- C8: every successful `generate_variants` call has one shared
timestamp token: all returned paths are of the form
`{outputDir}/{variantName}/{promptName}_{variantName}_{t}.{format}` with
one identical `t` across the whole call. -/
theorem C8_shared_timestamp (env : Env) (cfg : Config) (base : Image)
    (pname ts : String) (vs : List VariantResult)
    (h : generate_variants env cfg base pname ts = Except.ok vs) :
    ∃ t, ∀ r ∈ vs, ∃ sc, sc ∈ cfg.sizes ∧
      r.path = cfg.output_dir ++ "/" ++ sc.name ++ "/" ++
        (pname ++ "_" ++ sc.name ++ "_" ++ t ++ "." ++ cfg.format) := by
  refine ⟨ts, ?_⟩
  intro r hr
  obtain ⟨sc, hsc, hrm⟩ := gv_go_ok_mem env cfg pname ts cfg.sizes vs h r hr
  exact ⟨sc, hsc, by rw [hrm]; rfl⟩

/-- Witness for C8 at a one-variant configuration. -/
theorem C8_shared_timestamp_witness :
    ∃ t, ∀ r ∈ [vRel], ∃ sc, sc ∈ cfg1.sizes ∧
      r.path = cfg1.output_dir ++ "/" ++ sc.name ++ "/" ++
        ("p" ++ "_" ++ sc.name ++ "_" ++ t ++ "." ++ cfg1.format) :=
  C8_shared_timestamp env1 cfg1 imgBase "p" "ts" [vRel] (by decide)

/-- C9 counterexample: with the repository's default relative output
directory, the emitted `path` field is relative, not absolute, and the
`file://` URI is built from the absolutized path, not from the `path`
field. -/
theorem C9_counterexample :
    generate_variants env1 cfg1 imgBase "p" "ts" = Except.ok [vRel]
    ∧ isAbs vRel.path = false
    ∧ vRel.url ≠ "file://" ++ vRel.path := by
  exact ⟨by decide, by decide, by decide⟩

/-- C9 amended: every emitted `VariantResult` carries in `path` the
joined (not absolutized) output path `{outputDir}/{name}/{filename}`,
and in `url` the `file://` scheme applied to the cwd-absolutized form of
that path; when the configured output directory is absolute, `path` is
absolute and `url` is exactly `file://` plus `path`. -/
theorem C9_amended_paths (env : Env) (cfg : Config) (base : Image)
    (pname ts : String) (vs : List VariantResult)
    (h : generate_variants env cfg base pname ts = Except.ok vs)
    (r : VariantResult) (hr : r ∈ vs) (d : String)
    (habs : cfg.output_dir = "/" ++ d) :
    r.url = "file://" ++ abspath env.cwd r.path
    ∧ (∃ sc, sc ∈ cfg.sizes ∧ r.path = variantFilepath cfg pname ts sc)
    ∧ (∃ q, r.path = "/" ++ q)
    ∧ r.url = "file://" ++ r.path := by
  obtain ⟨sc, hsc, hrm⟩ := gv_go_ok_mem env cfg pname ts cfg.sizes vs h r hr
  have hpath : r.path = variantFilepath cfg pname ts sc := by rw [hrm]; rfl
  have hurl : r.url = "file://" ++ abspath env.cwd r.path := by
    rw [hrm]; rfl
  have hq : ∃ q, r.path = "/" ++ q := by
    refine ⟨d ++ "/" ++ sc.name ++ "/" ++
      (pname ++ "_" ++ sc.name ++ "_" ++ ts ++ "." ++ cfg.format), ?_⟩
    rw [hpath]
    apply String.ext
    simp [variantFilepath, habs, String.data_append, List.append_assoc]
  refine ⟨hurl, ⟨sc, hsc, hpath⟩, hq, ?_⟩
  obtain ⟨q, hqe⟩ := hq
  rw [hurl]
  have : abspath env.cwd r.path = r.path := by
    rw [hqe]
    simp [abspath, isAbs_slash_append]
  rw [this]

/-- Witness for C9 amended at an absolute output directory. -/
theorem C9_amended_paths_witness :
    vAbs.url = "file://" ++ abspath env1.cwd vAbs.path
    ∧ (∃ sc, sc ∈ cfgAbs.sizes ∧ vAbs.path = variantFilepath cfgAbs "p" "ts" sc)
    ∧ (∃ q, vAbs.path = "/" ++ q)
    ∧ vAbs.url = "file://" ++ vAbs.path :=
  C9_amended_paths env1 cfgAbs imgBase "p" "ts" [vAbs] (by decide) vAbs
    (by decide) "srv/out" (by decide)
